import Mathlib

/-!
# Verification of the RADCOM instrument-driver core

Shallow embedding of the repository's core operations: the Modbus CRC16
codec and serial DAC driver (`dac.py`), the synchronized command layer
(`instruments/base/instrument.py` / `pyvisa_base.py`), the abstract
capability classes (`multimeter.py`, `oscilloscope.py`,
`network_analyzer.py`) and the Fluke 45 vendor driver (`fluke45.py`).

Byte values and Python integers are modelled as `Nat`; commands sent to
the instrument are recorded as explicit operation traces; Python
exceptions are modelled by an optional error value carried next to the
trace of operations already emitted when the exception was raised.
-/

namespace RADCOM

/-! ## Checksum codec (`dac.py`, `modbus_crc16`)

The source:
```
crc = 0xFFFF
for byte in data:
    crc ^= byte
    for _ in range(8):
        if crc & 0x0001:
            crc >>= 1
            crc ^= poly
        else:
            crc >>= 1
return crc
```
-/

/-- One inner-loop iteration of `modbus_crc16`: test the low bit with
`crc & 0x0001`, shift right, and conditionally fold in the polynomial. -/
def crcStep (poly crc : Nat) : Nat :=
  if crc &&& 0x0001 = 1 then (crc >>> 1) ^^^ poly else crc >>> 1

/-- Processing of one input byte: `crc ^= byte` followed by eight
iterations of `crcStep`. -/
def crcByteStep (poly crc byte : Nat) : Nat :=
  (crcStep poly)^[8] (crc ^^^ byte)

/-- `modbus_crc16(data, poly)` from `dac.py`: fold `crcByteStep` over the
input starting from the initial value `0xFFFF`.  The Python default
`poly = 0xA001` is passed explicitly at every call site below. -/
def modbus_crc16 (data : List Nat) (poly : Nat) : Nat :=
  data.foldl (crcByteStep poly) 0xFFFF

/-- Reference round, written from the spec: "if the accumulator's low bit
is set, shift the accumulator right one bit and XOR 0xA001 into it,
otherwise only shift right one bit". -/
def referenceRound (acc : Nat) : Nat :=
  if acc % 2 = 1 then (acc / 2) ^^^ 0xA001 else acc / 2

/-- `k` repetitions of `referenceRound`. -/
def referenceRounds (acc : Nat) : Nat → Nat
  | 0 => acc
  | k + 1 => referenceRounds (referenceRound acc) k

/-- Reference accumulator loop, written from the spec: "for each byte of
d, XOR the byte into the low byte of the accumulator, then repeat 8
times" the round. -/
def referenceCrcAux (acc : Nat) : List Nat → Nat
  | [] => acc
  | b :: bs => referenceCrcAux (referenceRounds (acc ^^^ b) 8) bs

/-- The reference CRC of the spec: "start with accumulator 0xFFFF", run
the per-byte loop, "the result is the final 16-bit accumulator". -/
def referenceCrc (d : List Nat) : Nat :=
  referenceCrcAux 0xFFFF d

lemma crcStep_eq_referenceRound (acc : Nat) :
    crcStep 0xA001 acc = referenceRound acc := by
  unfold crcStep referenceRound
  rw [Nat.and_one_is_mod, Nat.shiftRight_eq_div_pow, pow_one]

lemma crcStep_iterate_eq (k acc : Nat) :
    (crcStep 0xA001)^[k] acc = referenceRounds acc k := by
  induction k generalizing acc with
  | zero => rfl
  | succ n ih =>
      rw [Function.iterate_succ_apply, ih, referenceRounds,
        crcStep_eq_referenceRound]

lemma referenceCrcAux_cons (acc b : Nat) (bs : List Nat) :
    referenceCrcAux acc (b :: bs)
      = referenceCrcAux (referenceRounds (acc ^^^ b) 8) bs := rfl

lemma foldl_eq_referenceCrcAux (d : List Nat) (acc : Nat) :
    d.foldl (crcByteStep 0xA001) acc = referenceCrcAux acc d := by
  induction d generalizing acc with
  | nil => rfl
  | cons b bs ih =>
      rw [List.foldl_cons, referenceCrcAux_cons, ih]
      congr 1
      exact crcStep_iterate_eq 8 (acc ^^^ b)

lemma crcStep_lt (poly crc : Nat) (hp : poly < 65536) (hc : crc < 65536) :
    crcStep poly crc < 65536 := by
  have hs : crc >>> 1 < 65536 := by
    rw [Nat.shiftRight_eq_div_pow, pow_one]
    exact lt_of_le_of_lt (Nat.div_le_self crc 2) hc
  unfold crcStep
  split
  · have : (65536 : Nat) = 2 ^ 16 := by norm_num
    rw [this] at hs hp ⊢
    exact Nat.xor_lt_two_pow hs hp
  · exact hs

lemma crcStep_iterate_lt (k crc : Nat) (hc : crc < 65536) :
    (crcStep 0xA001)^[k] crc < 65536 := by
  induction k generalizing crc with
  | zero => exact hc
  | succ n ih =>
      rw [Function.iterate_succ_apply]
      exact ih _ (crcStep_lt 0xA001 crc (by norm_num) hc)

lemma crcByteStep_lt (crc byte : Nat) (hc : crc < 65536) (hb : byte < 256) :
    crcByteStep 0xA001 crc byte < 65536 := by
  unfold crcByteStep
  apply crcStep_iterate_lt
  have h16 : (65536 : Nat) = 2 ^ 16 := by norm_num
  rw [h16] at hc ⊢
  exact Nat.xor_lt_two_pow hc (lt_trans hb (by norm_num))

lemma modbus_crc16_foldl_lt (d : List Nat) (acc : Nat)
    (hacc : acc < 65536) (hd : ∀ b ∈ d, b < 256) :
    d.foldl (crcByteStep 0xA001) acc < 65536 := by
  induction d generalizing acc with
  | nil => exact hacc
  | cons b bs ih =>
      rw [List.foldl_cons]
      exact ih _ (crcByteStep_lt acc b hacc (hd b (List.mem_cons_self b bs)))
        (fun x hx => hd x (List.mem_cons_of_mem b hx))

lemma modbus_crc16_lt (d : List Nat) (hd : ∀ b ∈ d, b < 256) :
    modbus_crc16 d 0xA001 < 65536 :=
  modbus_crc16_foldl_lt d 0xFFFF (by norm_num) hd

/-- **C1.** `modbus_crc16` agrees with the reference CRC of the spec on
every byte sequence; the empty sequence yields `0xFFFF`; the example
frame `01 06 00 0A 00 00` yields what the reference algorithm gives;
and on genuine byte input the result fits in 16 bits.  The embedding is
a total function, so the operation never raises. -/
theorem c1_modbus_crc16_matches_reference (d : List Nat) :
    modbus_crc16 d 0xA001 = referenceCrc d
    ∧ modbus_crc16 [] 0xA001 = 0xFFFF
    ∧ modbus_crc16 [0x01, 0x06, 0x00, 0x0A, 0x00, 0x00] 0xA001
        = referenceCrc [0x01, 0x06, 0x00, 0x0A, 0x00, 0x00]
    ∧ ((∀ b ∈ d, b < 256) → modbus_crc16 d 0xA001 < 65536) := by
  refine ⟨?_, rfl, ?_, modbus_crc16_lt d⟩
  · exact foldl_eq_referenceCrcAux d 0xFFFF
  · exact foldl_eq_referenceCrcAux _ 0xFFFF

/-- Witness for C1 at the concrete frame `01 06 00 0A 00 00`. -/
theorem c1_witness :
    (∀ b ∈ [0x01, 0x06, 0x00, 0x0A, 0x00, 0x00], b < 256)
    ∧ modbus_crc16 [0x01, 0x06, 0x00, 0x0A, 0x00, 0x00] 0xA001
        = referenceCrc [0x01, 0x06, 0x00, 0x0A, 0x00, 0x00]
    ∧ modbus_crc16 [0x01, 0x06, 0x00, 0x0A, 0x00, 0x00] 0xA001 < 65536 := by
  have h := c1_modbus_crc16_matches_reference
    [0x01, 0x06, 0x00, 0x0A, 0x00, 0x00]
  exact ⟨by decide, h.2.2.1, h.2.2.2 (by decide)⟩

/-! ## Effect traces

A Python method call is modelled by the list of external operations it
performed, in order, together with `none` for a normal return or
`some e` for the exception `e` it raised.  Operations already emitted
before the exception stay in the trace. -/

/-- Python exception kinds observed in the modelled code. -/
inductive PyErr
  | typeError
  | valueError
  | keyError
  | attributeError
  | overflowError
  deriving DecidableEq, Repr

/-- Result of one call: trace of emitted operations plus an optional
raised exception. -/
structure Eff (ω : Type) where
  ops : List ω
  err : Option PyErr
  deriving DecidableEq, Repr

/-- Statement sequencing: a raised exception aborts the rest of the
method body, keeping the operations emitted so far. -/
def Eff.seq {ω : Type} (x y : Eff ω) : Eff ω :=
  match x.err with
  | some e => ⟨x.ops, some e⟩
  | none => ⟨x.ops ++ y.ops, y.err⟩

/-- A statement that emits the given operations and returns normally. -/
def Eff.emit {ω : Type} (ops : List ω) : Eff ω := ⟨ops, none⟩

/-- A statement that raises `e` without emitting anything. -/
def Eff.raise {ω : Type} (e : PyErr) : Eff ω := ⟨[], some e⟩

/-! ## Serial DAC driver (`dac.py`, class `DAC`)

Operations on the underlying `pyserial` port. -/

/-- One `pyserial` operation: a write of a byte list, or a read. -/
inductive SerialOp
  | write (bytes : List Nat)
  | read
  deriving DecidableEq, Repr

namespace DAC

/-- `DAC.write(data)`:
`msg = b'\x01\x06' + data`, `crc = modbus_crc16(msg).to_bytes(2, 'little')`,
then a single `self._port.write(list(msg + crc))`.  `int.to_bytes`
raises `OverflowError` when the value does not fit in two bytes. -/
def write (data : List Nat) : Eff SerialOp :=
  let msg := [0x01, 0x06] ++ data
  let crc := modbus_crc16 msg 0xA001
  if crc < 65536 then
    Eff.emit [SerialOp.write (msg ++ [crc % 256, crc / 256])]
  else
    Eff.raise .overflowError

/-- `DAC.set_volt(channel, volt)`:
`chl = (channel + 0x09) & 0xFF`, `val = volt.to_bytes(2, 'big')`,
then `self.write(bytes([0x00, chl]) + val)`. -/
def set_volt (channel volt : Nat) : Eff SerialOp :=
  if volt < 65536 then
    write ([0x00, (channel + 0x09) % 256] ++ [volt / 256, volt % 256])
  else
    Eff.raise .overflowError

end DAC

/-- The frame `set_volt` is claimed to send, assembled from its pieces:
header `01 06`, reserved `00`, channel-select byte, big-endian
millivolt value, and the CRC of the first six bytes little-endian
last. -/
def setVoltFrame (channel volt : Nat) : List Nat :=
  let body := [0x01, 0x06, 0x00, (channel + 0x09) % 256,
    volt / 256, volt % 256]
  body ++ [modbus_crc16 body 0xA001 % 256, modbus_crc16 body 0xA001 / 256]

lemma setVolt_body_bytes_lt (channel volt : Nat) (hv : volt ≤ 65535) :
    ∀ b ∈ [0x01, 0x06, 0x00, (channel + 0x09) % 256,
      volt / 256, volt % 256], b < 256 := by
  intro b hb
  simp only [List.mem_cons, List.not_mem_nil, or_false] at hb
  rcases hb with h | h | h | h | h | h
  all_goals subst h
  all_goals omega

/-- **C2.** For channels 1..6 and millivolt values up to 65535,
`DAC.set_volt` performs exactly one serial-port write and no read, and
the written frame is the 8-byte sequence: header `01 06`, reserved
byte `00`, channel-select byte `(channel + 0x09) & 0xFF` (10 for
channel 1, 15 for channel 6), the value big-endian (so the two value
bytes decode back to `volt`), then the CRC of the first six bytes,
least-significant byte first. -/
theorem c2_set_volt_frame (channel volt : Nat)
    (hc1 : 1 ≤ channel) (hc6 : channel ≤ 6) (hv : volt ≤ 65535) :
    DAC.set_volt channel volt = Eff.emit [SerialOp.write
      (setVoltFrame channel volt)]
    ∧ (setVoltFrame channel volt).length = 8
    ∧ (channel + 0x09) % 256 = channel + 9
    ∧ (volt / 256) * 256 + volt % 256 = volt := by
  have hbytes := setVolt_body_bytes_lt channel volt hv
  have hcrc := modbus_crc16_lt _ hbytes
  refine ⟨?_, rfl, by omega, by omega⟩
  have h1 : volt < 65536 := by omega
  simp only [DAC.set_volt, DAC.write, List.cons_append, List.nil_append]
  rw [if_pos h1, if_pos hcrc]
  rfl

/-- Witness for C2 at channel 1, 1000 mV. -/
theorem c2_witness :
    1 ≤ 1 ∧ 1 ≤ 6 ∧ 1000 ≤ 65535
    ∧ (DAC.set_volt 1 1000 = Eff.emit [SerialOp.write (setVoltFrame 1 1000)]
      ∧ (setVoltFrame 1 1000).length = 8
      ∧ (1 + 0x09) % 256 = 1 + 9
      ∧ (1000 / 256) * 256 + 1000 % 256 = 1000) :=
  ⟨by decide, by decide, by decide,
    c2_set_volt_frame 1 1000 (by decide) (by decide) (by decide)⟩

/-! ## Transport session and synchronized command layer
(`instruments/base/pyvisa_base.py`, `instruments/base/instrument.py`) -/

/-- One operation on the underlying VISA resource. -/
inductive VisaOp
  | write (cmd : String)
  | read
  | query (cmd : String)
  | openResource (resource_name : String)
  deriving DecidableEq, Repr

/-- `VisaOp.query _` recognizer. -/
def VisaOp.isQuery : VisaOp → Bool
  | .query _ => true
  | _ => false

/-- `VisaOp.read` recognizer. -/
def VisaOp.isRead : VisaOp → Bool
  | .read => true
  | _ => false

namespace PyVisaBase

/-- `PyVisaBase.write(cmd)`: one `self.resource.write(cmd)` (the echo
flag only prints locally, sending nothing to the instrument). -/
def write (cmd : String) : List VisaOp := [VisaOp.write cmd]

end PyVisaBase

namespace Instrument

/-- `Instrument.write(cmd)`: `super().write(cmd)` then
`super().write('*WAI')`. -/
def write (cmd : String) : List VisaOp :=
  PyVisaBase.write cmd ++ PyVisaBase.write "*WAI"

end Instrument

namespace Channel

/-- `Channel.write(cmd)`: `super().write(cmd)` then
`super().write('*WAI')`. -/
def write (cmd : String) : List VisaOp :=
  PyVisaBase.write cmd ++ PyVisaBase.write "*WAI"

end Channel

/-- **C4 counterexample.** At the concrete command `"OUTP ON"`, the
synchronized write emits no query and no read at all — it cannot be
querying the operation-complete register until it reports true, and a
`TimeoutError` (raised only by reads) is unreachable.  The trace is
two plain writes: the command and `*WAI`. -/
theorem c4_counterexample :
    (Instrument.write "OUTP ON").all (fun op => !op.isQuery) = true
    ∧ (Instrument.write "OUTP ON").all (fun op => !op.isRead) = true
    ∧ (Channel.write "OUTP ON").all (fun op => !op.isQuery) = true
    ∧ Instrument.write "OUTP ON"
        = [VisaOp.write "OUTP ON", VisaOp.write "*WAI"] := by
  refine ⟨rfl, rfl, rfl, rfl⟩

/-- **C4 amended.** For every command, `Instrument.write` (and likewise
`Channel.write`) first delegates the command to the transport write
and then writes the `*WAI` wait-to-continue command; no
operation-complete query is issued, nothing is read back, and hence no
`TimeoutError` can arise at this layer — serialization is delegated to
the instrument's own handling of `*WAI`. -/
theorem c4_amended_write_then_wai (cmd : String) :
    Instrument.write cmd = [VisaOp.write cmd, VisaOp.write "*WAI"]
    ∧ Channel.write cmd = [VisaOp.write cmd, VisaOp.write "*WAI"]
    ∧ (Instrument.write cmd).all (fun op => !op.isQuery && !op.isRead) = true
    ∧ (Channel.write cmd).all (fun op => !op.isQuery && !op.isRead) = true :=
  ⟨rfl, rfl, rfl, rfl⟩

/-! ### Enable-register bit packing (`Instrument.event_status_enable_select`,
`Instrument.service_request_enable_select`) -/

/-- Python `bool` coerced to `int` in arithmetic context. -/
def boolToInt (b : Bool) : Nat := if b then 1 else 0

namespace Instrument

/-- The value packed by `event_status_enable_select`:
`(power_on << 7) | (command_error << 5) | (execution_error << 4)
| (device_specific_error << 3) | (query_error << 2) | operation_complete`. -/
def event_status_enable_select_value (operation_complete query_error
    device_specific_error execution_error command_error power_on : Bool) :
    Nat :=
  (boolToInt power_on <<< 7) ||| (boolToInt command_error <<< 5)
    ||| (boolToInt execution_error <<< 4)
    ||| (boolToInt device_specific_error <<< 3)
    ||| (boolToInt query_error <<< 2) ||| boolToInt operation_complete

/-- The value packed by `service_request_enable_select`:
`(standard_operation_summary << 7) | (master_summary << 6)
| (standard_event_summary << 5) | (message_available << 4)
| (questionable_data_summary << 3) | (error_queue << 2)`. -/
def service_request_enable_select_value (error_queue
    questionable_data_summary message_available standard_event_summary
    master_summary standard_operation_summary : Bool) : Nat :=
  (boolToInt standard_operation_summary <<< 7)
    ||| (boolToInt master_summary <<< 6)
    ||| (boolToInt standard_event_summary <<< 5)
    ||| (boolToInt message_available <<< 4)
    ||| (boolToInt questionable_data_summary <<< 3)
    ||| (boolToInt error_queue <<< 2)

/-- The `event_status_enable` setter: `self.write(f'*ESE {value}')`. -/
def event_status_enable_set (value : Nat) : List VisaOp :=
  Instrument.write ("*ESE " ++ toString value)

/-- The `service_request_enable` setter: `self.write(f'*SRE {value}')`. -/
def service_request_enable_set (value : Nat) : List VisaOp :=
  Instrument.write ("*SRE " ++ toString value)

/-- `event_status_enable_select(...)`: assigns the packed value to the
`event_status_enable` property. -/
def event_status_enable_select (operation_complete query_error
    device_specific_error execution_error command_error power_on : Bool) :
    List VisaOp :=
  event_status_enable_set (event_status_enable_select_value
    operation_complete query_error device_specific_error execution_error
    command_error power_on)

/-- `service_request_enable_select(...)`: assigns the packed value to
the `service_request_enable` property. -/
def service_request_enable_select (error_queue questionable_data_summary
    message_available standard_event_summary master_summary
    standard_operation_summary : Bool) : List VisaOp :=
  service_request_enable_set (service_request_enable_select_value
    error_queue questionable_data_summary message_available
    standard_event_summary master_summary standard_operation_summary)

end Instrument

/-- `1 << bit` when the flag is set, else 0: the spec's "sum of 1<<bit
over the true flags". -/
def flagBit (b : Bool) (bit : Nat) : Nat := if b then 1 <<< bit else 0

/-- The spec's event-status-enable value: bit 7 = power_on, bit 5 =
command_error, bit 4 = execution_error, bit 3 = device_specific_error,
bit 2 = query_error, bit 0 = operation_complete. -/
def eseSpecValue (operation_complete query_error device_specific_error
    execution_error command_error power_on : Bool) : Nat :=
  flagBit power_on 7 + flagBit command_error 5 + flagBit execution_error 4
    + flagBit device_specific_error 3 + flagBit query_error 2
    + flagBit operation_complete 0

/-- The spec's service-request-enable value: bit 7 =
standard_operation_summary, bit 6 = master_summary, bit 5 =
standard_event_summary, bit 4 = message_available, bit 3 =
questionable_data_summary, bit 2 = error_queue. -/
def sreSpecValue (error_queue questionable_data_summary message_available
    standard_event_summary master_summary standard_operation_summary :
    Bool) : Nat :=
  flagBit standard_operation_summary 7 + flagBit master_summary 6
    + flagBit standard_event_summary 5 + flagBit message_available 4
    + flagBit questionable_data_summary 3 + flagBit error_queue 2

/-- **C3.** For all 64 flag combinations of each helper, the value the
or-of-shifts expression packs equals the spec's sum of `1 << bit` over
the true flags at the documented bit positions, and the helper writes
exactly that value to its enable register. -/
theorem c3_enable_register_bits :
    (∀ oc qe dse ee ce po : Bool,
      Instrument.event_status_enable_select_value oc qe dse ee ce po
        = eseSpecValue oc qe dse ee ce po)
    ∧ (∀ eq qds ma ses ms sos : Bool,
      Instrument.service_request_enable_select_value eq qds ma ses ms sos
        = sreSpecValue eq qds ma ses ms sos)
    ∧ (∀ oc qe dse ee ce po : Bool,
      Instrument.event_status_enable_select oc qe dse ee ce po
        = Instrument.event_status_enable_set
            (eseSpecValue oc qe dse ee ce po))
    ∧ (∀ eq qds ma ses ms sos : Bool,
      Instrument.service_request_enable_select eq qds ma ses ms sos
        = Instrument.service_request_enable_set
            (sreSpecValue eq qds ma ses ms sos)) := by
  have hese : ∀ oc qe dse ee ce po : Bool,
      Instrument.event_status_enable_select_value oc qe dse ee ce po
        = eseSpecValue oc qe dse ee ce po := by decide
  have hsre : ∀ eq qds ma ses ms sos : Bool,
      Instrument.service_request_enable_select_value eq qds ma ses ms sos
        = sreSpecValue eq qds ma ses ms sos := by decide
  refine ⟨hese, hsre, ?_, ?_⟩
  · intro oc qe dse ee ce po
    unfold Instrument.event_status_enable_select
    rw [hese]
  · intro eq qds ma ses ms sos
    unfold Instrument.service_request_enable_select
    rw [hsre]

/-! ### Constructor arity (`Instrument.__init__`, `Channel.__init__`
versus `PyVisaBase.__init__`) -/

/-- A call with `n` positional arguments binds against a Python
signature accepting at most `paramCount` positional parameters
(beyond `self`); otherwise the call raises `TypeError` before the
callee body runs. -/
def acceptsPositional (paramCount n : Nat) : Bool := n ≤ paramCount

/-- `PyVisaBase.__init__(self, resource=None, echo=False)`: two
positional parameters beyond `self`. -/
def pyVisaBaseInitParamCount : Nat := 2

/-- `Instrument.__init__` starts with `super().__init__(None, echo,
name)`: three positional arguments. -/
def instrumentInitSuperArgCount : Nat := 3

/-- `Channel.__init__` starts with `super().__init__(resource, echo,
name)`: three positional arguments. -/
def channelInitSuperArgCount : Nat := 3

namespace Instrument

/-- `Instrument.__init__(resource_name, ...)`: first statement is the
`super().__init__` call; only if that binds do `open_resource` and the
`print(self.identity)` query run. -/
def init (resource_name : String) : Eff VisaOp :=
  if acceptsPositional pyVisaBaseInitParamCount instrumentInitSuperArgCount
  then Eff.emit [VisaOp.openResource resource_name, VisaOp.query "*IDN?"]
  else Eff.raise .typeError

end Instrument

namespace Channel

/-- `Channel.__init__(number, resource, ...)`: first statement is the
`super().__init__` call; only if that binds is `self.number` set (no
resource is opened and nothing is sent either way). -/
def init (_number : Nat) : Eff VisaOp :=
  if acceptsPositional pyVisaBaseInitParamCount channelInitSuperArgCount
  then Eff.emit []
  else Eff.raise .typeError

end Channel

/-- **C10.** Constructing an `Instrument` (and hence every capability
object layered on it) or a `Channel` raises `TypeError` before any
resource is opened or any command is sent: the three positional
arguments of the `super().__init__(...)` calls do not bind against the
two-parameter signature of `PyVisaBase.__init__`. -/
theorem c10_init_type_error (resource_name : String) (number : Nat) :
    acceptsPositional pyVisaBaseInitParamCount
      instrumentInitSuperArgCount = false
    ∧ Instrument.init resource_name = Eff.raise .typeError
    ∧ Channel.init number = Eff.raise .typeError
    ∧ (Instrument.init resource_name).ops = []
    ∧ (Channel.init number).ops = [] :=
  ⟨rfl, rfl, rfl, rfl, rfl⟩

/-! ## Multimeter capability (`instruments/base/multimeter.py`)

The abstract setters `function`, `rate`, `range`, `trigger_source`, the
`trigger()` command and `read_val()` are vendor-specific; the traces
below record which abstract command was issued with which label, which
is exactly what `Multimeter.setup` and `Multimeter.measure` fix. -/

/-- An abstract multimeter command, as issued by the base-class
algorithms. -/
inductive MMOp
  | func (label : String)
  | rate (label : String)
  | range (label : String)
  | trigSrc (label : String)
  | trig
  | readVal
  deriving DecidableEq, Repr

/-- `MMOp.trig` recognizer. -/
def MMOp.isTrig : MMOp → Bool
  | .trig => true
  | _ => false

/-- `MMOp.readVal` recognizer. -/
def MMOp.isReadVal : MMOp → Bool
  | .readVal => true
  | _ => false

namespace Multimeter

/-- `Multimeter.setup(func, rate, range_, trigger_type, echo)`: after
the local `self.echo = echo` assignment (which sends nothing), the
four property assignments run in source order: `self.function = func`,
`self.rate = rate`, `self.range = range_`,
`self.trigger_source = trigger_type`. -/
def setup_ops (func rate range_ trigger_type : String) : List MMOp :=
  [MMOp.func func, MMOp.rate rate, MMOp.range range_,
    MMOp.trigSrc trigger_type]

/-- `Multimeter.measure()` trace: `if self.trigger_measurement:
self.trigger()` then `return self.read_val()`. -/
def measure_ops (trigger_measurement : Bool) : List MMOp :=
  if trigger_measurement then [MMOp.trig, MMOp.readVal] else [MMOp.readVal]

/-- `Multimeter.measure()` with its return value: the value produced by
`read_val()` is returned unchanged. -/
def measure (trigger_measurement : Bool) (read_val_result : Nat) :
    List MMOp × Nat :=
  (measure_ops trigger_measurement, read_val_result)

end Multimeter

/-- **C5 counterexample.** At a concrete valid argument tuple with an
internal trigger source, the commands sent by `setup` followed by
`measure` are function, **rate**, **range**, trigger-source, read —
not the claimed function, range, rate, trigger-source, read: `setup`
issues the rate command *before* the range command. -/
theorem c5_counterexample :
    Multimeter.setup_ops "VOLT:DC" "slow" "300mV" "internal"
        ++ Multimeter.measure_ops false
      ≠ [MMOp.func "VOLT:DC", MMOp.range "300mV", MMOp.rate "slow",
        MMOp.trigSrc "internal", MMOp.readVal] := by
  decide

/-- **C5 amended.** For every argument tuple, `setup` followed by
`measure` with a non-triggering (internal/external) source sends
exactly: function command, rate command, range command, trigger-source
command, then a single read command, with no trigger command
anywhere (`setup` issues the rate command before the range command). -/
theorem c5_amended_setup_order (func rate range_ trigger_type : String) :
    Multimeter.setup_ops func rate range_ trigger_type
        ++ Multimeter.measure_ops false
      = [MMOp.func func, MMOp.rate rate, MMOp.range range_,
        MMOp.trigSrc trigger_type, MMOp.readVal]
    ∧ (Multimeter.setup_ops func rate range_ trigger_type
        ++ Multimeter.measure_ops false).all (fun op => !op.isTrig) = true
    ∧ (Multimeter.setup_ops func rate range_ trigger_type
        ++ Multimeter.measure_ops false).countP
          (fun op => op.isReadVal) = 1 :=
  ⟨rfl, rfl, rfl⟩

/-- **C6.** `measure()` issues exactly one trigger followed by exactly
one read when `trigger_measurement` is true, and no trigger with
exactly one read when it is false; in both cases it returns the value
`read_val()` produced. -/
theorem c6_measure_trigger_discipline (tm : Bool) (v : Nat) :
    Multimeter.measure tm v
      = (if tm then [MMOp.trig, MMOp.readVal] else [MMOp.readVal], v)
    ∧ (Multimeter.measure_ops tm).countP (fun op => op.isReadVal) = 1
    ∧ (Multimeter.measure_ops tm).countP (fun op => op.isTrig)
        = (if tm then 1 else 0)
    ∧ (Multimeter.measure tm v).2 = v := by
  cases tm <;> exact ⟨rfl, rfl, rfl, rfl⟩

/-! ## Oscilloscope and network-analyzer composite setup
(`instruments/base/oscilloscope.py`,
`instruments/base/network_analyzer.py`)

The abstract property setters are recorded as operations; the numeric
payloads (Python floats) are carried as opaque `Nat` values, since none
of the modelled control flow computes with them — only presence
(`is not None`) and truthiness matter. -/

/-- One abstract property assignment issued by the composite setup
operations. -/
inductive CfgOp
  | hScale (v : Nat)
  | hRange (v : Nat)
  | sampleRate (v : Nat)
  | resolution (v : Nat)
  | recordLength (v : Nat)
  | hRef (v : Nat)
  | hPos (v : Nat)
  | enable (b : Bool)
  | vScale (v : Nat)
  | vRange (v : Nat)
  | vPos (v : Nat)
  | coupling (s : String)
  | expression (s : String)
  | sweepType (s : String)
  | freqSweepLength (n : Nat)
  | startFreq (v : Nat)
  | stopFreq (v : Nat)
  | centerFreq (v : Nat)
  | freqSpan (v : Nat)
  | cwFreq (v : Nat)
  | powerSweepStart (v : Nat)
  | powerSweepStop (v : Nat)
  | powerSweepLength (n : Nat)
  deriving DecidableEq, Repr

/-- Python truthiness of an optional numeric argument (`None` and `0`
are falsy), as used by `config_freq_sweep`'s `if (start and stop)`. -/
def truthy : Option Nat → Bool
  | none => false
  | some v => v != 0

namespace Oscilloscope

/-- `Oscilloscope.timebase(sample_rate, resolution, record_length,
h_scale, h_range, h_ref, h_pos)`: the `h_scale`/`h_range` if-chain,
then the `sample_rate`/`resolution` if-chain, then the three optional
single assignments, with `raise ValueError` on each both-given arm. -/
def timebase (sample_rate resolution record_length h_scale h_range
    h_ref h_pos : Option Nat) : Eff CfgOp :=
  Eff.seq
    (match h_scale, h_range with
      | some a, none => Eff.emit [CfgOp.hScale a]
      | none, some b => Eff.emit [CfgOp.hRange b]
      | some _, some _ => Eff.raise .valueError
      | none, none => Eff.emit [])
  (Eff.seq
    (match sample_rate, resolution with
      | some a, none => Eff.emit [CfgOp.sampleRate a]
      | none, some b => Eff.emit [CfgOp.resolution b]
      | some _, some _ => Eff.raise .valueError
      | none, none => Eff.emit [])
  (Eff.seq
    (match record_length with
      | some c => Eff.emit [CfgOp.recordLength c]
      | none => Eff.emit [])
  (Eff.seq
    (match h_ref with
      | some c => Eff.emit [CfgOp.hRef c]
      | none => Eff.emit [])
    (match h_pos with
      | some c => Eff.emit [CfgOp.hPos c]
      | none => Eff.emit []))))

end Oscilloscope

namespace InputChannel

/-- `InputChannel.setup(v_scale, v_range, v_pos, coupling)`:
`self.enable = True` first, then the `v_scale`/`v_range` if-chain,
then the optional position and coupling assignments. -/
def setup (v_scale v_range v_pos : Option Nat)
    (coupling : Option String) : Eff CfgOp :=
  Eff.seq (Eff.emit [CfgOp.enable true])
  (Eff.seq
    (match v_scale, v_range with
      | some a, none => Eff.emit [CfgOp.vScale a]
      | none, some b => Eff.emit [CfgOp.vRange b]
      | some _, some _ => Eff.raise .valueError
      | none, none => Eff.emit [])
  (Eff.seq
    (match v_pos with
      | some c => Eff.emit [CfgOp.vPos c]
      | none => Eff.emit [])
    (match coupling with
      | some s => Eff.emit [CfgOp.coupling s]
      | none => Eff.emit [])))

end InputChannel

namespace MathChannel

/-- `Math.setup(expr, v_range, v_scale)`: `self.enable = True`, then
`self.expression = expr`, then the `v_scale`/`v_range` if-chain. -/
def setup (expr : String) (v_range v_scale : Option Nat) : Eff CfgOp :=
  Eff.seq (Eff.emit [CfgOp.enable true])
  (Eff.seq (Eff.emit [CfgOp.expression expr])
    (match v_scale, v_range with
      | some a, none => Eff.emit [CfgOp.vScale a]
      | none, some b => Eff.emit [CfgOp.vRange b]
      | some _, some _ => Eff.raise .valueError
      | none, none => Eff.emit []))

end MathChannel

namespace NetworkAnalyzer

/-- `NetworkAnalyzer.config_freq_sweep(sweep_length, start, stop,
center, span, sweep_type)`: sets `sweep_type` and
`frequency_sweep_length` unconditionally first, then dispatches on the
Python-truthiness condition `(start and stop) and not (center or
span)` / `(center and span) and not (start or stop)`, raising
`ValueError` otherwise. -/
def config_freq_sweep (sweep_length : Nat)
    (start stop_ center span : Option Nat) (sweep_type : String) :
    Eff CfgOp :=
  Eff.seq (Eff.emit [CfgOp.sweepType sweep_type])
  (Eff.seq (Eff.emit [CfgOp.freqSweepLength sweep_length])
    (if truthy start && truthy stop_ && !(truthy center || truthy span)
     then Eff.emit [CfgOp.startFreq (start.getD 0),
       CfgOp.stopFreq (stop_.getD 0)]
     else if truthy center && truthy span
         && !(truthy start || truthy stop_)
     then Eff.emit [CfgOp.centerFreq (center.getD 0),
       CfgOp.freqSpan (span.getD 0)]
     else Eff.raise .valueError))

end NetworkAnalyzer

/-- **C7 counterexample.** `InputChannel.setup` given both `v_scale`
and `v_range` does raise, but it has already issued the
channel-enable write: the trace is not empty, so the claim's "issues
zero write commands to the transport, leaving the instrument state
unchanged" is false at this input. -/
theorem c7_counterexample :
    (InputChannel.setup (some 1) (some 1) none none).err
        = some PyErr.valueError
    ∧ (InputChannel.setup (some 1) (some 1) none none).ops
        = [CfgOp.enable true]
    ∧ ¬ (InputChannel.setup (some 1) (some 1) none none).ops = [] := by
  refine ⟨rfl, rfl, by decide⟩

/-- **C7 amended.** Every mutually exclusive pair given together still
makes the call raise (`ValueError` in the code — the spec's
`ConfigurationError`), but only `Oscilloscope.timebase`'s
`h_scale`/`h_range` check fires before any write; the other
operations have already issued the writes preceding the failing
check: `timebase` given both `sample_rate` and `resolution` may
already have set the horizontal scale, `InputChannel.setup` has
written the channel enable, `Math.setup` the enable and expression,
and `config_freq_sweep` the sweep type and sweep length. -/
theorem c7_amended_exclusive_pairs (sr res rl rf rp vp : Option Nat)
    (cp : Option String) (a b n e0 : Nat) (expr st : String) :
    Oscilloscope.timebase sr res rl (some a) (some b) rf rp
        = ⟨[], some .valueError⟩
    ∧ Oscilloscope.timebase (some a) (some b) rl none none rf rp
        = ⟨[], some .valueError⟩
    ∧ Oscilloscope.timebase (some a) (some b) rl (some e0) none rf rp
        = ⟨[CfgOp.hScale e0], some .valueError⟩
    ∧ InputChannel.setup (some a) (some b) vp cp
        = ⟨[CfgOp.enable true], some .valueError⟩
    ∧ MathChannel.setup expr (some a) (some b)
        = ⟨[CfgOp.enable true, CfgOp.expression expr], some .valueError⟩
    ∧ NetworkAnalyzer.config_freq_sweep n (some (a + 1)) (some (b + 1))
        (some (a + 1)) (some (b + 1)) st
        = ⟨[CfgOp.sweepType st, CfgOp.freqSweepLength n],
          some .valueError⟩
    ∧ NetworkAnalyzer.config_freq_sweep n none none none none st
        = ⟨[CfgOp.sweepType st, CfgOp.freqSweepLength n],
          some .valueError⟩ := by
  refine ⟨rfl, rfl, rfl, rfl, rfl, ?_, rfl⟩
  simp only [NetworkAnalyzer.config_freq_sweep, truthy, Eff.seq]
  rfl

/-! ### `Port.config_power_sweep` (`network_analyzer.py`) -/

/-- `super().<attr> = value` in Python: the `super()` proxy object does
not support attribute assignment, so the statement raises
`AttributeError` unconditionally and the assigned value never reaches
the instrument. -/
def superSetAttr (_attr : String) : Eff CfgOp := Eff.raise .attributeError

namespace Port

/-- `Port.config_power_sweep(sweep_length, cw_frequency, start, stop)`:
`super().sweep_type = 'power'`, `super().cw_frequency = cw_frequency`,
then the three power-sweep property assignments. -/
def config_power_sweep (sweep_length : Nat) (_cw_frequency : Nat)
    (start stop_ : Nat) : Eff CfgOp :=
  Eff.seq (superSetAttr "sweep_type")
  (Eff.seq (superSetAttr "cw_frequency")
  (Eff.seq (Eff.emit [CfgOp.powerSweepStart start])
  (Eff.seq (Eff.emit [CfgOp.powerSweepStop stop_])
    (Eff.emit [CfgOp.powerSweepLength sweep_length]))))

end Port

/-- **C8.** `Port.config_power_sweep` never performs the claimed
sequence: its first statement `super().sweep_type = 'power'` raises
`AttributeError` (Python's `super()` proxy rejects attribute
assignment), so for every argument tuple the call raises with zero
writes on the session instead of returning normally. -/
theorem c8_config_power_sweep_raises
    (sweep_length cw_frequency start stop_ : Nat) :
    Port.config_power_sweep sweep_length cw_frequency start stop_
      = ⟨[], some PyErr.attributeError⟩ :=
  rfl

/-! ## Fluke 45 vendor driver (`instruments/fluke45.py`)

Python dict subscripting `TABLE[value]` raises `KeyError` when the key
is absent; in every setter the subscript is evaluated (inside the
f-string or argument expression) before `self.write` is called, so an
unknown label raises before anything reaches the wire. -/

/-- Association-list lookup standing for Python `dict.__getitem__`
(minus the raise, which the callers below add). -/
def dictGet {α : Type} (table : List (String × α)) (key : String) :
    Option α :=
  (table.find? (fun p => p.fst == key)).map Prod.snd

namespace Fluke45

/-- `Fluke45.FUNCS`. -/
def FUNCS : List (String × String) :=
  [("CURR:AC", "AAC"), ("CURR:DC", "ADC"), ("CONT", "CONT"),
    ("DIOD", "DIODE"), ("FREQ", "FREQ"), ("RES", "OHMS"),
    ("VOLT:AC", "VAC"), ("VOLT:DC", "VDC")]

/-- `Fluke45.RANGES`. -/
def RANGES : List (String × Nat) :=
  [("300mV", 1), ("3V", 2), ("30V", 3), ("300V", 4), ("1000V", 5),
    ("300Ohm", 1), ("3kOhm", 2), ("30kOhm", 3), ("300kOhm", 4),
    ("3MOhm", 5), ("30MOhm", 6), ("300MOhm", 7), ("30mA", 1),
    ("10mA", 1), ("100mA", 2), ("10A", 3), ("1000Hz", 1), ("10kHz", 2),
    ("100kHz", 3), ("1000kHz", 4), ("1MHz", 5), ("100mV", 1), ("1V", 2),
    ("10V", 3), ("100V", 4), ("750V", 4), ("100Ohm", 1), ("1kOhm", 2),
    ("10kOhm", 3), ("100kOhm", 4), ("1MOhm", 5), ("10MOhm", 6),
    ("100MOhm", 7)]

/-- `Fluke45.RATES`. -/
def RATES : List (String × String) :=
  [("min", "S"), ("slow", "S"), ("medium", "M"), ("fast", "F"),
    ("max", "F")]

/-- `Fluke45.TRIGGER_TYPES`. -/
def TRIGGER_TYPES : List (String × Nat) :=
  [("internal", 1), ("external", 5), ("bus", 3)]

/-- `Fluke45.write(cmd)`: `super().write(cmd)` resolves to
`Instrument.write` (command then `*WAI`), then `self.read()` consumes
the `'=>'` acknowledgment. -/
def write_ops (cmd : String) : List VisaOp :=
  Instrument.write cmd ++ [VisaOp.read]

/-- The `function` setter: `self.write(self.FUNCS[value])` (the
subsequent `self._function = value` is a local attribute write). -/
def function_set (value : String) : Eff VisaOp :=
  match dictGet FUNCS value with
  | none => Eff.raise .keyError
  | some token => Eff.emit (write_ops token)

/-- The `function2` setter: looks up `self.FUNCS[value]`, raises
`ValueError` for `'CONT'`, otherwise writes `f'{self.FUNCS[value]}2'`. -/
def function2_set (value : String) : Eff VisaOp :=
  match dictGet FUNCS value with
  | none => Eff.raise .keyError
  | some token =>
      if token == "CONT" then Eff.raise .valueError
      else Eff.emit (write_ops (token ++ "2"))

/-- The `range` setter: `self.write(f'RANGE {self.RANGES[value]}')`. -/
def range_set (value : String) : Eff VisaOp :=
  match dictGet RANGES value with
  | none => Eff.raise .keyError
  | some n => Eff.emit (write_ops ("RANGE " ++ toString n))

/-- The `rate` setter: `self.write(f'RATE {self.RATES[value]}')`. -/
def rate_set (value : String) : Eff VisaOp :=
  match dictGet RATES value with
  | none => Eff.raise .keyError
  | some token => Eff.emit (write_ops ("RATE " ++ token))

/-- The `trigger_source` setter:
`self.write(f'TRIGGER {self.TRIGGER_TYPES[value]}')`. -/
def trigger_source_set (value : String) : Eff VisaOp :=
  match dictGet TRIGGER_TYPES value with
  | none => Eff.raise .keyError
  | some n => Eff.emit (write_ops ("TRIGGER " ++ toString n))

end Fluke45

/-! ### Non-validating vendor setters (`instruments/hp34401a.py`,
`instruments/n6700b.py`)

Not every enumerated vendor setter goes through a lookup table: the
HP 34401A driver interpolates the label straight into the command
string, and the N6700B channel's priority-mode setter never uses the
label at all. -/

namespace HP34401AD

/-- The `HP34401AD.function` setter: `self.write(f'FUNC "{value}"')` —
no table lookup; the label is interpolated into the command.
`HP34401AD` inherits `Instrument.write`. -/
def function_set (value : String) : Eff VisaOp :=
  Eff.emit (Instrument.write ("FUNC \"" ++ value ++ "\""))

/-- The `HP34401AD.trigger_source` setter:
`self.write(f'TRIG:SOUR "{value}"')` — no table lookup. -/
def trigger_source_set (value : String) : Eff VisaOp :=
  Eff.emit (Instrument.write ("TRIG:SOUR \"" ++ value ++ "\""))

end HP34401AD

namespace N6700BChannel

/-- The `N6700BChannel.priority_mode` setter:
`self.write(f'FUNC value,(@{self.number})')` — only `self.number` is
interpolated; the text `value` is sent literally, and the label is
never validated (nor sent).  `N6700BChannel` inherits
`Channel.write`. -/
def priority_mode_set (_value : String) (number : Nat) : Eff VisaOp :=
  Eff.emit (Channel.write ("FUNC value,(@" ++ toString number ++ ")"))

end N6700BChannel

/-- **C9 counterexample.** At the out-of-set label `"XRAY"`, the
enumerated vendor setters `HP34401AD.function`,
`HP34401AD.trigger_source` and `N6700BChannel.priority_mode` raise
nothing: the writes reach the wire (for the HP 34401A carrying the
unrecognized label itself), refuting the claim that every enumerated
vendor setter fails with a KeyError-equivalent before any command is
sent. -/
theorem c9_counterexample :
    HP34401AD.function_set "XRAY"
        = Eff.emit [VisaOp.write "FUNC \"XRAY\"", VisaOp.write "*WAI"]
    ∧ (HP34401AD.function_set "XRAY").err = none
    ∧ (HP34401AD.function_set "XRAY").ops ≠ []
    ∧ HP34401AD.trigger_source_set "XRAY"
        = Eff.emit [VisaOp.write "TRIG:SOUR \"XRAY\"", VisaOp.write "*WAI"]
    ∧ (HP34401AD.trigger_source_set "XRAY").err = none
    ∧ N6700BChannel.priority_mode_set "XRAY" 1
        = Eff.emit [VisaOp.write "FUNC value,(@1)", VisaOp.write "*WAI"]
    ∧ (N6700BChannel.priority_mode_set "XRAY" 1).err = none := by
  refine ⟨rfl, rfl, by decide, rfl, rfl, rfl, rfl⟩

/-- **C9 amended.** Lookup-table-based enumerated setters — all five of
the Fluke 45's — evaluate the table access before any command is
sent, so an out-of-set label raises `KeyError` with zero writes
reaching the wire and no partial state written to hardware; but
vendor setters that interpolate the label directly into the command
string (`HP34401AD.function`, `HP34401AD.trigger_source`,
`N6700BChannel.priority_mode`) send their command unvalidated, raising
nothing, for every label. -/
theorem c9_invalid_label_fails_fast (value : String) :
    (dictGet Fluke45.FUNCS value = none →
      Fluke45.function_set value = Eff.raise .keyError
      ∧ Fluke45.function2_set value = Eff.raise .keyError)
    ∧ (dictGet Fluke45.RANGES value = none →
      Fluke45.range_set value = Eff.raise .keyError)
    ∧ (dictGet Fluke45.RATES value = none →
      Fluke45.rate_set value = Eff.raise .keyError)
    ∧ (dictGet Fluke45.TRIGGER_TYPES value = none →
      Fluke45.trigger_source_set value = Eff.raise .keyError)
    ∧ (∀ number : Nat,
      (HP34401AD.function_set value).err = none
      ∧ (HP34401AD.function_set value).ops
          = Instrument.write ("FUNC \"" ++ value ++ "\"")
      ∧ (HP34401AD.trigger_source_set value).err = none
      ∧ (HP34401AD.trigger_source_set value).ops
          = Instrument.write ("TRIG:SOUR \"" ++ value ++ "\"")
      ∧ (N6700BChannel.priority_mode_set value number).err = none
      ∧ (N6700BChannel.priority_mode_set value number).ops
          = Channel.write ("FUNC value,(@" ++ toString number ++ ")")) := by
  refine ⟨fun h => ⟨?_, ?_⟩, fun h => ?_, fun h => ?_, fun h => ?_,
    fun number => ⟨rfl, rfl, rfl, rfl, rfl, rfl⟩⟩
  · unfold Fluke45.function_set
    rw [h]
  · unfold Fluke45.function2_set
    rw [h]
  · unfold Fluke45.range_set
    rw [h]
  · unfold Fluke45.rate_set
    rw [h]
  · unfold Fluke45.trigger_source_set
    rw [h]

/-- Witness for C9 at the out-of-set label `"XRAY"`. -/
theorem c9_witness :
    dictGet Fluke45.FUNCS "XRAY" = none
    ∧ dictGet Fluke45.RANGES "XRAY" = none
    ∧ dictGet Fluke45.RATES "XRAY" = none
    ∧ dictGet Fluke45.TRIGGER_TYPES "XRAY" = none
    ∧ Fluke45.function_set "XRAY" = Eff.raise .keyError
    ∧ Fluke45.function2_set "XRAY" = Eff.raise .keyError
    ∧ Fluke45.range_set "XRAY" = Eff.raise .keyError
    ∧ Fluke45.rate_set "XRAY" = Eff.raise .keyError
    ∧ Fluke45.trigger_source_set "XRAY" = Eff.raise .keyError
    ∧ (HP34401AD.function_set "XRAY").err = none := by
  have h := c9_invalid_label_fails_fast "XRAY"
  have hf : dictGet Fluke45.FUNCS "XRAY" = none := by decide
  have hg : dictGet Fluke45.RANGES "XRAY" = none := by decide
  have hr : dictGet Fluke45.RATES "XRAY" = none := by decide
  have ht : dictGet Fluke45.TRIGGER_TYPES "XRAY" = none := by decide
  exact ⟨hf, hg, hr, ht, (h.1 hf).1, (h.1 hf).2, h.2.1 hg, h.2.2.1 hr,
    h.2.2.2.1 ht, (h.2.2.2.2 0).1⟩

end RADCOM
